import Mathlib

/-!
Verification of the x-bookmarks scripts (`scripts/x_api_auth.py` and
`scripts/fetch_bookmarks_api.py`) against their specification.

The Python code works over JSON dicts, so persisted state (TokenSet,
ClientConfig) and token-endpoint responses are embedded as association
lists of string keys to JSON-like values, which keeps Python truthiness
(`if not tokens`, `if tokens.get("refresh_token")`) and `dict.setdefault`
faithful.  Network calls are embedded as oracles: the refresh HTTP call
becomes an `Except` parameter (exception or parsed response dict), and the
paginated bookmarks endpoint becomes a list of per-request outcomes.
-/

/-- A JSON scalar value as stored in the token/config dicts.  The scripts
only ever read strings and integers out of these dicts; `null` stands for
Python `None`. -/
inductive JVal where
  | s (v : String)
  | n (v : Int)
  | null
deriving DecidableEq, Repr

/-- A Python/JSON dict, embedded as an association list (keys unique in
practice; lookup takes the first match). -/
abbrev JDict := List (String × JVal)

/-- `d.get(k)`: Python `dict.get` with default `None`. -/
def jget (d : JDict) (k : String) : Option JVal :=
  (d.find? (fun p => p.1 == k)).map (fun p => p.2)

/-- Python truthiness of a JSON scalar: empty string, zero and `None` are
falsy. -/
def truthy : JVal → Bool
  | .s v => v ≠ ""
  | .n v => v ≠ 0
  | .null => false

/-- Python truthiness of `d.get(k)`: `None` (absent key) is falsy. -/
def otruthy : Option JVal → Bool
  | some v => truthy v
  | none => false

/-- Python truthiness of a dict: the empty dict is falsy. -/
def dictTruthy (d : JDict) : Bool := !d.isEmpty

/-- `d.setdefault(k, v)`: if `k` is present keep `d`, otherwise insert
`k ↦ v` (as `x_api_auth.py` line 131 does for `"refresh_token"`). -/
def setdefault (d : JDict) (k : String) (v : JVal) : JDict :=
  if (jget d k).isSome then d else d ++ [(k, v)]

/-- Observable outcome of one `get_valid_token()` call: the value returned
to the caller (`None` or a token), the dict passed to `save_tokens` when it
was called, and whether `refresh_access_token` was invoked. -/
structure GVTResult where
  ret : Option JVal
  saved : Option JDict
  refreshCalled : Bool
deriving DecidableEq, Repr

/-- `get_valid_token()` from `scripts/x_api_auth.py` lines 113–138.

`tokensFile` is what `load_tokens()` returns (`none` when the token file is
missing), `config` what `load_config()` returns (`[]` when the config file
is missing), and `refreshOutcome` the outcome of the
`refresh_access_token` HTTP call: `.error` for any raised exception
(network error or non-2xx), `.ok` for the parsed JSON response.

Branches in source order: `if not tokens: return None`;
`if not config.get("client_id"): return None`;
`if tokens.get("refresh_token"):` then in a `try` block call refresh,
`new_tokens.setdefault("refresh_token", tokens["refresh_token"])`,
`save_tokens(new_tokens)`, `return new_tokens["access_token"]` — a missing
`"access_token"` key raises `KeyError` after the save, which the
`except Exception` arm catches, returning `tokens.get("access_token")`;
the same arm handles a failed HTTP call (no save).  With no refresh token,
`return tokens.get("access_token")`. -/
def get_valid_token (tokensFile : Option JDict) (config : JDict)
    (refreshOutcome : Except String JDict) : GVTResult :=
  match tokensFile with
  | none => ⟨none, none, false⟩
  | some tokens =>
    if ¬ dictTruthy tokens then ⟨none, none, false⟩
    else if ¬ otruthy (jget config "client_id") then ⟨none, none, false⟩
    else if otruthy (jget tokens "refresh_token") then
      match refreshOutcome with
      | .ok resp =>
        let newTokens := setdefault resp "refresh_token"
          ((jget tokens "refresh_token").getD .null)
        match jget newTokens "access_token" with
        | some v => ⟨some v, some newTokens, true⟩
        | none => ⟨jget tokens "access_token", some newTokens, true⟩
      | .error _ => ⟨jget tokens "access_token", none, true⟩
    else ⟨jget tokens "access_token", none, false⟩

theorem jget_append_of_none {d l : JDict} {k : String} (h : jget d k = none) :
    jget (d ++ l) k = jget l k := by
  simp only [jget, List.find?_append]
  simp only [jget] at h
  rcases hf : d.find? (fun p => p.1 == k) with _ | p
  · simp [hf]
  · simp [hf] at h

theorem jget_append_of_some {d l : JDict} {k : String} {v : JVal}
    (h : jget d k = some v) : jget (d ++ l) k = some v := by
  simp only [jget, List.find?_append]
  simp only [jget] at h
  rcases hf : d.find? (fun p => p.1 == k) with _ | p
  · simp [hf] at h
  · simpa [hf] using h

theorem jget_setdefault_self {d : JDict} {k : String} {v : JVal}
    (h : jget d k = none) : jget (setdefault d k v) k = some v := by
  simp only [setdefault, h, Option.isSome_none, Bool.false_eq_true, if_false]
  rw [jget_append_of_none h]
  simp [jget]

theorem jget_setdefault_other {d : JDict} {k k' : String} {v w : JVal}
    (h : jget d k' = some w) : jget (setdefault d k v) k' = some w := by
  unfold setdefault
  split
  · exact h
  · exact jget_append_of_some h

/-- C1: if the refresh-token grant succeeds but the response omits a
`refresh_token` field, the TokenSet that `get_valid_token` persists retains
the previously stored refresh token, and the returned value is the new
access token from the response. -/
theorem get_valid_token_preserves_refresh_token
    (tokens config resp : JDict) (rt a : JVal)
    (htok : dictTruthy tokens = true)
    (hcid : otruthy (jget config "client_id") = true)
    (hrt : jget tokens "refresh_token" = some rt)
    (hrtt : truthy rt = true)
    (hresprt : jget resp "refresh_token" = none)
    (hrespat : jget resp "access_token" = some a) :
    (get_valid_token (some tokens) config (.ok resp)).ret = some a ∧
    ∃ saved, (get_valid_token (some tokens) config (.ok resp)).saved = some saved ∧
      jget saved "refresh_token" = some rt := by
  have hnewat :
      jget (setdefault resp "refresh_token" ((jget tokens "refresh_token").getD .null))
        "access_token" = some a := by
    rw [hrt]
    exact jget_setdefault_other hrespat
  have hnewrt :
      jget (setdefault resp "refresh_token" ((jget tokens "refresh_token").getD .null))
        "refresh_token" = some rt := by
    rw [hrt]
    exact jget_setdefault_self hresprt
  have hres : get_valid_token (some tokens) config (.ok resp) =
      ⟨some a, some (setdefault resp "refresh_token" ((jget tokens "refresh_token").getD .null)),
        true⟩ := by
    simp only [get_valid_token]
    rw [if_neg (by simp [htok]), if_neg (by simp [hcid]),
      if_pos (show otruthy (jget tokens "refresh_token") = true by rw [hrt]; simpa [otruthy] using hrtt)]
    simp only [hnewat]
  rw [hres]
  exact ⟨rfl, _, rfl, hnewrt⟩

/-- C1 witness: stored refresh token "R1", refresh response
`{access_token:"A2", expires_in:7200}`: the returned token is "A2" and the
persisted refresh token remains "R1". -/
theorem get_valid_token_preserves_refresh_token_witness :
    (get_valid_token (some [("access_token", JVal.s "A1"), ("refresh_token", JVal.s "R1")])
      [("client_id", JVal.s "CID")]
      (.ok [("access_token", JVal.s "A2"), ("expires_in", JVal.n 7200)])).ret =
        some (JVal.s "A2") ∧
    ∃ saved, (get_valid_token
        (some [("access_token", JVal.s "A1"), ("refresh_token", JVal.s "R1")])
        [("client_id", JVal.s "CID")]
        (.ok [("access_token", JVal.s "A2"), ("expires_in", JVal.n 7200)])).saved =
          some saved ∧
      jget saved "refresh_token" = some (JVal.s "R1") :=
  get_valid_token_preserves_refresh_token _ _ _ _ _
    (by decide) (by decide) (by decide) (by decide) (by decide) (by decide)

/-- C2: if the refresh HTTP call raises (network error or non-2xx),
`get_valid_token` still returns the previously persisted access token
rather than absent. -/
theorem get_valid_token_failure_returns_old_token
    (tokens config : JDict) (e : String) (a : JVal)
    (htok : dictTruthy tokens = true)
    (hcid : otruthy (jget config "client_id") = true)
    (hrt : otruthy (jget tokens "refresh_token") = true)
    (ha : jget tokens "access_token" = some a) :
    (get_valid_token (some tokens) config (.error e)).ret = some a := by
  simp only [get_valid_token, htok, hcid, hrt, not_true_eq_false, if_false, if_true]
  exact ha

/-- C2 witness. -/
theorem get_valid_token_failure_returns_old_token_witness :
    (get_valid_token (some [("access_token", JVal.s "A1"), ("refresh_token", JVal.s "R1")])
      [("client_id", JVal.s "CID")] (.error "HTTP 500")).ret = some (JVal.s "A1") :=
  get_valid_token_failure_returns_old_token _ _ _ _
    (by decide) (by decide) (by decide) (by decide)

/-- C3: with no refresh token stored, `get_valid_token` performs no call to
the token-refresh endpoint and returns the stored access token unchanged
(and saves nothing). -/
theorem get_valid_token_no_refresh_token
    (tokens config : JDict) (ro : Except String JDict)
    (hcid : otruthy (jget config "client_id") = true)
    (hrt : jget tokens "refresh_token" = none) :
    (get_valid_token (some tokens) config ro).refreshCalled = false ∧
    (get_valid_token (some tokens) config ro).ret = jget tokens "access_token" ∧
    (get_valid_token (some tokens) config ro).saved = none := by
  have hcases : tokens = [] ∨ dictTruthy tokens = true := by
    cases tokens with
    | nil => exact Or.inl rfl
    | cons p l => exact Or.inr rfl
  rcases hcases with hnil | htt
  · subst hnil
    simp [get_valid_token, dictTruthy, jget]
  · have hres : get_valid_token (some tokens) config ro =
        ⟨jget tokens "access_token", none, false⟩ := by
      simp only [get_valid_token]
      rw [if_neg (by simp [htt]), if_neg (by simp [hcid]),
        if_neg (show ¬ otruthy (jget tokens "refresh_token") = true by simp [hrt, otruthy])]
    rw [hres]
    exact ⟨rfl, rfl, rfl⟩

/-- C3 witness. -/
theorem get_valid_token_no_refresh_token_witness :
    (get_valid_token (some [("access_token", JVal.s "A1")])
      [("client_id", JVal.s "CID")] (.error "unused")).refreshCalled = false ∧
    (get_valid_token (some [("access_token", JVal.s "A1")])
      [("client_id", JVal.s "CID")] (.error "unused")).ret =
        jget [("access_token", JVal.s "A1")] "access_token" ∧
    (get_valid_token (some [("access_token", JVal.s "A1")])
      [("client_id", JVal.s "CID")] (.error "unused")).saved = none :=
  get_valid_token_no_refresh_token _ _ _ (by decide) (by decide)

/-- C8: `get_valid_token` reports absent (returns no token, saves nothing,
contacts no endpoint) whenever the persisted TokenSet is missing or the
ClientConfig lacks a client id (in particular when the ClientConfig file is
missing, since `load_config` then returns the empty dict). -/
theorem get_valid_token_absent_on_missing_state
    (tokensFile : Option JDict) (config : JDict) (ro : Except String JDict)
    (h : tokensFile = none ∨ jget config "client_id" = none) :
    get_valid_token tokensFile config ro = ⟨none, none, false⟩ := by
  rcases h with hnone | hcid
  · subst hnone
    rfl
  · cases tokensFile with
    | none => rfl
    | some tokens =>
      simp only [get_valid_token]
      by_cases htok : dictTruthy tokens = true
      · rw [if_neg (by simp [htok]),
          if_pos (show ¬ otruthy (jget config "client_id") = true by simp [hcid, otruthy])]
      · rw [if_pos (by simpa using htok)]

/-- C8 witness: missing ClientConfig (empty dict) with a stored TokenSet. -/
theorem get_valid_token_absent_on_missing_state_witness :
    get_valid_token (some [("access_token", JVal.s "A1")]) [] (.error "unused") =
      ⟨none, none, false⟩ :=
  get_valid_token_absent_on_missing_state _ _ _ (Or.inr (by decide))

/-- C10: if the refresh HTTP call fails, `get_valid_token` never calls
`save_tokens`, so the persisted TokenSet after the call is exactly the one
stored before it. -/
theorem get_valid_token_failure_never_saves
    (tokensFile : Option JDict) (config : JDict) (e : String) :
    (get_valid_token tokensFile config (.error e)).saved = none := by
  cases tokensFile with
  | none => rfl
  | some tokens =>
    simp only [get_valid_token]
    by_cases htok : dictTruthy tokens = true
    · by_cases hcid : otruthy (jget config "client_id") = true
      · rw [if_neg (by simp [htok]), if_neg (by simp [hcid])]
        by_cases hrt : otruthy (jget tokens "refresh_token") = true
        · rw [if_pos hrt]
        · rw [if_neg hrt]
      · rw [if_neg (by simp [htok]), if_pos (by simpa using hcid)]
    · rw [if_pos (by simpa using htok)]

/-- The URL-safe base64 alphabet used by `base64.urlsafe_b64encode`. -/
def b64urlAlphabet : List Char :=
  "ABCDEFGHIJKLMNOPQRSTUVWXYZabcdefghijklmnopqrstuvwxyz0123456789-_".toList

/-- The character for a 6-bit group. -/
def b64chr (n : Nat) : Char := b64urlAlphabet.getD n 'A'

/-- `base64.urlsafe_b64encode(bytes).rstrip(b"=")`: URL-safe base64 of a
byte sequence with the `=` padding stripped, grouping bytes in threes; a
trailing single byte yields two characters and a trailing pair three
(exactly the non-`=` characters of padded base64). -/
def b64urlNoPad : List Nat → List Char
  | [] => []
  | [a] => [b64chr (a / 4), b64chr (a % 4 * 16)]
  | [a, b] => [b64chr (a / 4), b64chr (a % 4 * 16 + b / 16), b64chr (b % 16 * 4)]
  | a :: b :: c :: rest =>
      b64chr (a / 4) :: b64chr (a % 4 * 16 + b / 16) ::
      b64chr (b % 16 * 4 + c / 64) :: b64chr (c % 64) :: b64urlNoPad rest

/-- `secrets.token_urlsafe` applied to the given random bytes:
base64url-encode without padding. -/
def token_urlsafe (randomBytes : List Nat) : String :=
  String.mk (b64urlNoPad randomBytes)

/-- `generate_pkce()` from `scripts/x_api_auth.py` lines 67–72, over the 64
random bytes drawn by `secrets.token_urlsafe(64)` and an abstract SHA-256
digest function (the script calls hashlib; the digest is a byte list).
`verifier = secrets.token_urlsafe(64)[:128]`;
`challenge = base64.urlsafe_b64encode(sha256(verifier.encode()).digest()).rstrip(b"=")`. -/
def generate_pkce (rnd : List Nat) (sha256 : String → List Nat) : String × String :=
  let verifier := String.mk ((token_urlsafe rnd).toList.take 128)
  let challenge := String.mk (b64urlNoPad (sha256 verifier))
  (verifier, challenge)

theorem b64urlNoPad_length (l : List Nat) :
    (b64urlNoPad l).length = (8 * l.length + 5) / 6 := by
  induction l using b64urlNoPad.induct with
  | case1 => simp [b64urlNoPad]
  | case2 a => simp [b64urlNoPad]
  | case3 a b => simp [b64urlNoPad]
  | case4 a b c rest ih =>
    simp only [b64urlNoPad, List.length_cons, ih]
    omega

theorem b64chr_mem {n : Nat} (h : n < 64) : b64chr n ∈ b64urlAlphabet := by
  have hlen : b64urlAlphabet.length = 64 := by rfl
  unfold b64chr
  rw [List.getD_eq_getElem?_getD, List.getElem?_eq_getElem (by omega)]
  exact List.getElem_mem _

theorem b64urlNoPad_mem (l : List Nat) (hb : ∀ b ∈ l, b < 256) :
    ∀ ch ∈ b64urlNoPad l, ch ∈ b64urlAlphabet := by
  induction l using b64urlNoPad.induct with
  | case1 => simp [b64urlNoPad]
  | case2 a =>
    have ha : a < 256 := hb a (by simp)
    intro ch hch
    simp only [b64urlNoPad, List.mem_cons, List.not_mem_nil, or_false] at hch
    rcases hch with h | h <;> subst h <;> exact b64chr_mem (by omega)
  | case3 a b =>
    have ha : a < 256 := hb a (by simp)
    have hbb : b < 256 := hb b (by simp)
    intro ch hch
    simp only [b64urlNoPad, List.mem_cons, List.not_mem_nil, or_false] at hch
    rcases hch with h | h | h <;> subst h <;> exact b64chr_mem (by omega)
  | case4 a b c rest ih =>
    have ha : a < 256 := hb a (by simp)
    have hbb : b < 256 := hb b (by simp)
    have hc : c < 256 := hb c (by simp)
    intro ch hch
    simp only [b64urlNoPad, List.mem_cons] at hch
    rcases hch with h | h | h | h | h
    · subst h; exact b64chr_mem (by omega)
    · subst h; exact b64chr_mem (by omega)
    · subst h; exact b64chr_mem (by omega)
    · subst h; exact b64chr_mem (by omega)
    · exact ih (fun x hx => hb x (by simp [hx])) ch h

/-- C4: for every pair produced by `generate_pkce` (any 64 random bytes,
any SHA-256 digest), the verifier's length is within 43–128 (it is in fact
86), the verifier consists only of URL-safe base64 characters, and the
challenge is the unpadded URL-safe base64 encoding of the SHA-256 digest of
the verifier. -/
theorem generate_pkce_spec (rnd : List Nat) (sha256 : String → List Nat)
    (hlen : rnd.length = 64) (hb : ∀ b ∈ rnd, b < 256) :
    43 ≤ (generate_pkce rnd sha256).1.length ∧
    (generate_pkce rnd sha256).1.length ≤ 128 ∧
    (∀ ch ∈ (generate_pkce rnd sha256).1.toList, ch ∈ b64urlAlphabet) ∧
    (generate_pkce rnd sha256).2 =
      String.mk (b64urlNoPad (sha256 (generate_pkce rnd sha256).1)) := by
  have henc : (b64urlNoPad rnd).length = 86 := by
    rw [b64urlNoPad_length, hlen]
  have hv : (generate_pkce rnd sha256).1 = String.mk ((b64urlNoPad rnd).take 128) := rfl
  refine ⟨?_, ?_, ?_, rfl⟩
  · rw [hv]
    simp [List.length_take, henc]
  · rw [hv]
    simp [List.length_take, henc]
  · intro ch hch
    rw [hv] at hch
    have : ch ∈ (b64urlNoPad rnd).take 128 := hch
    exact b64urlNoPad_mem rnd hb ch (List.mem_of_mem_take this)

/-- C4 witness: 64 zero bytes and a trivial digest function. -/
theorem generate_pkce_spec_witness :
    43 ≤ (generate_pkce (List.replicate 64 0) (fun _ => [])).1.length ∧
    (generate_pkce (List.replicate 64 0) (fun _ => [])).1.length ≤ 128 ∧
    (∀ ch ∈ (generate_pkce (List.replicate 64 0) (fun _ => [])).1.toList,
      ch ∈ b64urlAlphabet) ∧
    (generate_pkce (List.replicate 64 0) (fun _ => [])).2 =
      String.mk (b64urlNoPad ((fun _ => [])
        (generate_pkce (List.replicate 64 0) (fun _ => [])).1)) :=
  generate_pkce_spec _ _ (by simp)
    (fun b hb => by simp [List.eq_of_mem_replicate hb])

/-- The `result` dict shared between `authorize` and its request handler:
`{"code": None, "error": None}`. -/
structure AuthorizationResult where
  code : Option String
  error : Option String
deriving DecidableEq, Repr

/-- Parsed query string as produced by `urllib.parse.parse_qs`: each key
maps to a non-empty list of values (blank values are dropped entirely by
default, so empty value lists never occur). -/
abbrev QueryParams := List (String × List String)

/-- `params.get(k)`. -/
def qget (params : QueryParams) (k : String) : Option (List String) :=
  (params.find? (fun p => p.1 == k)).map (fun p => p.2)

/-- `params.get(k, [None])[0]`: first value of `k`, or `None` when the key
is absent (`parse_qs` value lists are non-empty, so indexing is safe). -/
def qfirst (params : QueryParams) (k : String) : Option String :=
  match qget params k with
  | some (v :: _) => some v
  | some [] => none
  | none => none

/-- `Handler.do_GET` from `scripts/x_api_auth.py` lines 160–179, given the
Authorizer's `state`, the request's parsed path and query parameters and
the current `result` dict.  Returns the updated `result` and the HTTP
status sent to the browser.  On `/callback`: `result["error"] = "State
mismatch"` if `params.get("state", [None])[0] != state`; else
`result["error"] = params["error"][0]` if an `error` parameter is present;
else `result["code"] = params.get("code", [None])[0]`.  Any other path
gets a 404 and leaves `result` untouched. -/
def handlerDoGet (state : String) (path : String) (params : QueryParams)
    (result : AuthorizationResult) : AuthorizationResult × Nat :=
  if path = "/callback" then
    if qfirst params "state" ≠ some state then
      ({ result with error := some "State mismatch" }, 200)
    else if (qget params "error").isSome then
      ({ result with error := some (((qget params "error").getD []).headD "") }, 200)
    else
      ({ result with code := qfirst params "code" }, 200)
  else (result, 404)

/-- C5: any `/callback` request whose `state` parameter does not exactly
equal the Authorizer's state (including an absent `state` parameter) sets
an error in the result and accepts no code, whatever `code` or `error`
parameters are also present. -/
theorem handlerDoGet_state_mismatch
    (state : String) (params : QueryParams)
    (hmism : qfirst params "state" ≠ some state) :
    (handlerDoGet state "/callback" params ⟨none, none⟩).1.error = some "State mismatch" ∧
    (handlerDoGet state "/callback" params ⟨none, none⟩).1.code = none := by
  simp only [handlerDoGet, if_pos rfl, if_pos hmism]
  exact ⟨rfl, rfl⟩

/-- C5 witness: a callback carrying a code and an error but a wrong state. -/
theorem handlerDoGet_state_mismatch_witness :
    (handlerDoGet "S1" "/callback" [("code", ["C1"]), ("error", ["access_denied"]),
      ("state", ["WRONG"])] ⟨none, none⟩).1.error = some "State mismatch" ∧
    (handlerDoGet "S1" "/callback" [("code", ["C1"]), ("error", ["access_denied"]),
      ("state", ["WRONG"])] ⟨none, none⟩).1.code = none :=
  handlerDoGet_state_mismatch _ _ (by decide)

/-- A user object from the response's `includes.users` side-table (the
fields `normalize_tweet` reads). -/
structure XUser where
  username : Option String
  name : Option String
deriving DecidableEq, Repr

/-- A media object from the response's `includes.media` side-table (the
fields `normalize_tweet` reads). -/
structure XMedia where
  type : Option String
  url : Option String
  preview_image_url : Option String
deriving DecidableEq, Repr

/-- An entry of a tweet's `referenced_tweets` list.  The `id` field is
required by the API schema (`normalize_tweet` indexes it as `ref["id"]`);
`type` is read with `.get`. -/
structure RefTweet where
  type : Option String
  id : String
deriving DecidableEq, Repr

/-- A raw tweet object as `normalize_tweet` reads it: `id` is required
(`tweet["id"]`), the rest is read with `.get` and defaults.
`public_metrics` is the metrics dict (string keys to integer counts);
`media_keys` is `tweet.get("attachments", {}).get("media_keys", [])`. -/
structure Tweet where
  id : String
  text : Option String
  created_at : Option String
  author_id : Option String
  public_metrics : List (String × Int)
  media_keys : List String
  referenced_tweets : List RefTweet
deriving DecidableEq, Repr

/-- Lookup in a dict keyed by strings (Python `d.get(k)`). -/
def alookup {α : Type} (l : List (String × α)) (k : String) : Option α :=
  (l.find? (fun p => p.1 == k)).map (fun p => p.2)

/-- `metrics.get(k, 0)`. -/
def mget (metrics : List (String × Int)) (k : String) : Int :=
  (alookup metrics k).getD 0

/-- Python `x or y` for an optional string `x` and string `y`: `y` when `x`
is `None` or empty. -/
def pyOr (x : Option String) (y : String) : String :=
  match x with
  | some u => if u = "" then y else u
  | none => y

/-- A normalized media entry: `{"type": ..., "url": ...}`. -/
structure NormMedia where
  type : String
  url : String
deriving DecidableEq, Repr

/-- The normalized `author` sub-object. -/
structure NormAuthor where
  username : String
  name : String
deriving DecidableEq, Repr

/-- The normalized quoted-post reference `{"id": ...}`. -/
structure QuotedRef where
  id : String
deriving DecidableEq, Repr

/-- A normalized bookmark record; `quotedTweet = none` embeds the key being
absent from the output dict. -/
structure NormTweet where
  id : String
  text : String
  createdAt : String
  replyCount : Int
  retweetCount : Int
  likeCount : Int
  bookmarkCount : Int
  viewCount : Int
  author : NormAuthor
  media : List NormMedia
  quotedTweet : Option QuotedRef
deriving DecidableEq, Repr

/-- The `for ref in tweet.get("referenced_tweets", [])` loop of
`normalize_tweet`: `quoted` starts at `None` and each reference with
`type == "quoted"` overwrites it. -/
def quotedStep (q : Option QuotedRef) (r : RefTweet) : Option QuotedRef :=
  if r.type = some "quoted" then some ⟨r.id⟩ else q

/-- `normalize_tweet(tweet, users, media)` from
`scripts/fetch_bookmarks_api.py` lines 70–111.  `users` maps user ids to
user objects and `media` maps media keys to media objects (the lookup dicts
`fetch_all_bookmarks` builds from the `includes` side-tables).  The media
loop drops keys missing from `media` (`m = media.get(mk, {}); if m:`), and
each media url is `m.get("url") or m.get("preview_image_url", "")`. -/
def normalize_tweet (tweet : Tweet) (users : List (String × XUser))
    (media : List (String × XMedia)) : NormTweet :=
  let author := (alookup users (tweet.author_id.getD "")).getD ⟨none, none⟩
  let metrics := tweet.public_metrics
  let media_list := tweet.media_keys.filterMap (fun mk =>
    (alookup media mk).map (fun m =>
      ({ type := m.type.getD "photo",
         url := pyOr m.url (m.preview_image_url.getD "") } : NormMedia)))
  let quoted := tweet.referenced_tweets.foldl quotedStep none
  { id := tweet.id
    text := tweet.text.getD ""
    createdAt := tweet.created_at.getD ""
    replyCount := mget metrics "reply_count"
    retweetCount := mget metrics "retweet_count"
    likeCount := mget metrics "like_count"
    bookmarkCount := mget metrics "bookmark_count"
    viewCount := mget metrics "impression_count"
    author := { username := author.username.getD "", name := author.name.getD "" }
    media := media_list
    quotedTweet := quoted }

theorem foldl_quotedStep_isSome (l : List RefTweet) :
    ∀ q : Option QuotedRef,
      (l.foldl quotedStep q).isSome = true ↔
        q.isSome = true ∨ ∃ r ∈ l, r.type = some "quoted" := by
  induction l with
  | nil => simp
  | cons x xs ih =>
    intro q
    rw [List.foldl_cons, ih]
    unfold quotedStep
    by_cases hx : x.type = some "quoted"
    · simp [hx]
    · simp only [hx, if_false, List.mem_cons]
      constructor
      · rintro (h | ⟨r, hr, ht⟩)
        · exact Or.inl h
        · exact Or.inr ⟨r, Or.inr hr, ht⟩
      · rintro (h | ⟨r, hr | hr, ht⟩)
        · exact Or.inl h
        · subst hr; exact absurd ht hx
        · exact Or.inr ⟨r, hr, ht⟩

theorem foldl_quotedStep_no_quoted {l : List RefTweet}
    (h : ∀ r ∈ l, ¬ r.type = some "quoted") (q : Option QuotedRef) :
    l.foldl quotedStep q = q := by
  induction l generalizing q with
  | nil => rfl
  | cons x xs ih =>
    rw [List.foldl_cons]
    have hx : ¬ x.type = some "quoted" := h x (by simp)
    rw [show quotedStep q x = q by simp [quotedStep, hx]]
    exact ih (fun r hr => h r (by simp [hr])) q

theorem foldl_quotedStep_single {l : List RefTweet} {r : RefTweet}
    (h : l.filter (fun x => x.type = some "quoted") = [r]) (q : Option QuotedRef) :
    l.foldl quotedStep q = some ⟨r.id⟩ := by
  induction l generalizing q with
  | nil => simp at h
  | cons x xs ih =>
    by_cases hx : x.type = some "quoted"
    · rw [List.filter_cons_of_pos (by simpa using hx)] at h
      have hxr : x = r := by
        have := congrArg (fun l => l.headD x) h
        simpa using this
      have hxs : xs.filter (fun y => y.type = some "quoted") = [] := by
        have := congrArg List.tail h
        simpa using this
      have hnone : ∀ y ∈ xs, ¬ y.type = some "quoted" := by
        intro y hy hyq
        have : y ∈ xs.filter (fun y => y.type = some "quoted") :=
          List.mem_filter.2 ⟨hy, by simpa using hyq⟩
        simp [hxs] at this
      rw [List.foldl_cons, show quotedStep q x = some ⟨x.id⟩ by simp [quotedStep, hx],
        foldl_quotedStep_no_quoted hnone, hxr]
    · rw [List.filter_cons_of_neg (by simpa using hx)] at h
      rw [List.foldl_cons, show quotedStep q x = q by simp [quotedStep, hx]]
      exact ih h q

/-- C9: normalization maps a raw item to the fixed record shape — id, text,
creation timestamp, the five engagement counts read from `public_metrics`,
the author's username and name, and the media list — and the `quotedTweet`
field is present exactly when the item has a reference of type `"quoted"`;
when the quoted references are exactly one with id "Q1" (or any id), the
output's `quotedTweet` is `{id: that id}`. -/
theorem normalize_tweet_spec (tweet : Tweet) (users : List (String × XUser))
    (media : List (String × XMedia)) :
    (normalize_tweet tweet users media).id = tweet.id ∧
    (normalize_tweet tweet users media).text = tweet.text.getD "" ∧
    (normalize_tweet tweet users media).createdAt = tweet.created_at.getD "" ∧
    (normalize_tweet tweet users media).replyCount = mget tweet.public_metrics "reply_count" ∧
    (normalize_tweet tweet users media).retweetCount = mget tweet.public_metrics "retweet_count" ∧
    (normalize_tweet tweet users media).likeCount = mget tweet.public_metrics "like_count" ∧
    (normalize_tweet tweet users media).bookmarkCount = mget tweet.public_metrics "bookmark_count" ∧
    (normalize_tweet tweet users media).viewCount = mget tweet.public_metrics "impression_count" ∧
    ((normalize_tweet tweet users media).quotedTweet.isSome = true ↔
      ∃ r ∈ tweet.referenced_tweets, r.type = some "quoted") ∧
    (∀ r : RefTweet,
      tweet.referenced_tweets.filter (fun x => x.type = some "quoted") = [r] →
      (normalize_tweet tweet users media).quotedTweet = some ⟨r.id⟩) := by
  refine ⟨rfl, rfl, rfl, rfl, rfl, rfl, rfl, rfl, ?_, ?_⟩
  · have := foldl_quotedStep_isSome tweet.referenced_tweets none
    simpa [normalize_tweet] using this
  · intro r hr
    have := foldl_quotedStep_single hr (none : Option QuotedRef)
    simpa [normalize_tweet] using this

/-- C9 witness: an item whose single reference quotes post "Q1" normalizes
to a record with `quotedTweet = {id: "Q1"}`. -/
theorem normalize_tweet_spec_witness :
    (normalize_tweet
      ⟨"T1", some "hello", some "2024-01-01T00:00:00Z", some "U1",
        [("reply_count", 1), ("retweet_count", 2), ("like_count", 3),
         ("bookmark_count", 4), ("impression_count", 5)],
        [], [⟨some "quoted", "Q1"⟩]⟩
      [("U1", ⟨some "alice", some "Alice"⟩)] []).quotedTweet = some ⟨"Q1"⟩ :=
  (normalize_tweet_spec
    ⟨"T1", some "hello", some "2024-01-01T00:00:00Z", some "U1",
      [("reply_count", 1), ("retweet_count", 2), ("like_count", 3),
       ("bookmark_count", 4), ("impression_count", 5)],
      [], [⟨some "quoted", "Q1"⟩]⟩
    [("U1", ⟨some "alice", some "Alice"⟩)] []).2.2.2.2.2.2.2.2.2
    ⟨some "quoted", "Q1"⟩ (by decide)

/-- One page response from the bookmarks endpoint, with the lookup maps the
loop builds from `includes` (`users` keyed by user id, `media` keyed by
media key) and the pagination cursor `meta.get("next_token")`. -/
structure BookmarkPage where
  data : List Tweet
  users : List (String × XUser)
  media : List (String × XMedia)
  next_token : Option String
deriving DecidableEq, Repr

/-- Outcome of one `fetch_bookmarks_page` call: the parsed page, or an
`urllib.error.HTTPError` with its status code. -/
inductive PageResult where
  | ok (p : BookmarkPage)
  | httpError (code : Nat)
deriving DecidableEq, Repr

/-- `remaining > 0`, where `none` embeds Python's `float("inf")` (the
`--all` case). -/
def remPos : Option Int → Bool
  | none => true
  | some r => r > 0

/-- `remaining -= len(data)`. -/
def remSub (rem : Option Int) (n : Nat) : Option Int :=
  rem.map (fun r => r - n)

/-- The `while remaining > 0` loop of `fetch_all_bookmarks`
(`scripts/fetch_bookmarks_api.py` lines 121–153) over the sequence of
outcomes the provider returns for the successive page requests.  An
`HTTPError` with code 429 breaks out of the loop returning the accumulator;
any other `HTTPError` is re-raised (`.error code`).  An ok page with no
data breaks; otherwise its tweets are normalized and appended, `remaining`
is decremented, and the loop stops if `meta` has no `next_token`.  The
oracle list running out embeds the provider answering no further request
(the claims only constrain halting, which happens before that). -/
def fetch_loop (pages : List PageResult) (remaining : Option Int)
    (acc : List NormTweet) : Except Nat (List NormTweet) :=
  if ¬ remPos remaining then .ok acc
  else
    match pages with
    | [] => .ok acc
    | .httpError c :: _ => if c = 429 then .ok acc else .error c
    | .ok p :: rest =>
      if p.data.isEmpty then .ok acc
      else
        let acc2 := acc ++ p.data.map (fun t => normalize_tweet t p.users p.media)
        match p.next_token with
        | none => .ok acc2
        | some _ => fetch_loop rest (remSub remaining p.data.length) acc2

/-- `fetch_all_bookmarks(token, count, all_pages)`: run the pagination loop
with `remaining = count` (or unbounded for `--all`) and an empty
accumulator. -/
def fetch_all_bookmarks (pages : List PageResult) (count : Int)
    (all_pages : Bool) : Except Nat (List NormTweet) :=
  fetch_loop pages (if all_pages then none else some count) []

/-- C6: a 429 rate-limit error on the page request after a first good page
halts pagination and returns the bookmarks accumulated from the preceding
page without propagating an error, whereas a non-429 HTTP error is
re-raised to the caller. -/
theorem fetch_loop_rate_limit
    (p : BookmarkPage) (rest rest2 : List PageResult) (rem rem2 : Option Int)
    (acc acc2 : List NormTweet) (c : Nat)
    (hr : remPos rem = true) (hd : ¬ p.data.isEmpty = true)
    (ht : p.next_token.isSome = true)
    (hr2 : remPos rem2 = true) (hc : ¬ c = 429) :
    fetch_loop (.ok p :: .httpError 429 :: rest) rem acc =
      .ok (acc ++ p.data.map (fun t => normalize_tweet t p.users p.media)) ∧
    fetch_loop (.httpError c :: rest2) rem2 acc2 = .error c := by
  constructor
  · rw [fetch_loop, if_neg (by simp [hr])]
    rcases hnt : p.next_token with _ | t
    · rw [hnt] at ht
      simp at ht
    · simp only [hd, if_false, hnt]
      rw [fetch_loop]
      by_cases h2 : remPos (remSub rem p.data.length) = true
      · simp [h2]
      · simp [h2]
  · rw [fetch_loop, if_neg (by simp [hr2])]
    simp [hc]

/-- C6 witness: one good single-tweet page, then a 429; and a 500 which is
re-raised. -/
theorem fetch_loop_rate_limit_witness :
    fetch_loop
      [.ok ⟨[⟨"T1", none, none, none, [], [], []⟩], [], [], some "cursor2"⟩,
       .httpError 429] (some 20) [] =
      .ok ([] ++ ([⟨"T1", none, none, none, [], [], []⟩] : List Tweet).map
        (fun t => normalize_tweet t [] [])) ∧
    fetch_loop [.httpError 500] (some 20) [] = .error 500 :=
  fetch_loop_rate_limit _ _ [.httpError 500] _ (some 20) _ [] 500
    (by decide) (by decide) (by decide) (by decide) (by decide)

/-- C7: pagination stops, returning what was accumulated so far, when a
page's metadata has no `next_token` — even with the requested count not yet
reached (any positive `remaining`, any further available responses) — and
likewise stops when a page contains no data items. -/
theorem fetch_loop_stops_without_cursor
    (p q : BookmarkPage) (rest rest2 : List PageResult) (rem rem2 : Option Int)
    (acc acc2 : List NormTweet)
    (hr : remPos rem = true) (hd : ¬ p.data.isEmpty = true)
    (hnt : p.next_token = none)
    (hr2 : remPos rem2 = true) (hq : q.data.isEmpty = true) :
    fetch_loop (.ok p :: rest) rem acc =
      .ok (acc ++ p.data.map (fun t => normalize_tweet t p.users p.media)) ∧
    fetch_loop (.ok q :: rest2) rem2 acc2 = .ok acc2 := by
  constructor
  · rw [fetch_loop, if_neg (by simp [hr])]
    simp [hd, hnt]
  · rw [fetch_loop, if_neg (by simp [hr2])]
    simp [hq]

/-- C7 witness: a single-tweet page with no cursor while 20 more items were
requested; and a page with no data. -/
theorem fetch_loop_stops_without_cursor_witness :
    fetch_loop [.ok ⟨[⟨"T1", none, none, none, [], [], []⟩], [], [], none⟩,
        .httpError 500] (some 20) [] =
      .ok ([] ++ ([⟨"T1", none, none, none, [], [], []⟩] : List Tweet).map
        (fun t => normalize_tweet t [] [])) ∧
    fetch_loop [.ok ⟨[], [], [], some "cursor2"⟩] (some 20) [] = .ok [] :=
  fetch_loop_stops_without_cursor _ _ [.httpError 500] _ (some 20) _ [] []
    (by decide) (by decide) (by decide) (by decide) (by decide)
